import Mathlib

/-!
Verification of the antec-flux-pro-display core against its specification.

The Rust source (src/usb.rs, src/cpu.rs, src/config.rs, src/main.rs) is
shallowly embedded below.  Rust f32 values are modelled as exact rationals
together with an explicit NaN value; the Rust float-to-integer cast
(saturating, truncation toward zero) is modelled by castU8, and the Rust
float remainder operator (truncated remainder, exact for these operands)
by tmod10.  Filesystem and USB-descriptor state is passed explicitly.
-/

/-- Model of an f32 value: an exact rational or NaN. -/
inductive F32 where
  | nan : F32
  | fin : ℚ → F32
deriving DecidableEq

/-- Truncation of a rational toward zero, as in a C-style cast. -/
def ratTrunc (q : ℚ) : ℤ := if 0 ≤ q then ⌊q⌋ else -⌊-q⌋

/-- Rust `q % 10.0`: truncated remainder, `q - 10 * trunc (q / 10)`. -/
def tmod10 (q : ℚ) : ℚ := q - 10 * (ratTrunc (q / 10) : ℚ)

/-- Rust `q as u8` on a finite float: truncate toward zero, then saturate
to the range 0..=255. -/
def castU8 (q : ℚ) : ℕ := if q < 0 then 0 else if 255 ≤ q then 255 else (⌊q⌋).toNat

/-- `temp / 10.0` lifted to the f32 model. -/
def f32div10 : F32 → F32
  | F32.nan => F32.nan
  | F32.fin q => F32.fin (q / 10)

/-- `temp * 10.0` lifted to the f32 model. -/
def f32mul10 : F32 → F32
  | F32.nan => F32.nan
  | F32.fin q => F32.fin (q * 10)

/-- `temp % 10.0` lifted to the f32 model. -/
def f32rem10 : F32 → F32
  | F32.nan => F32.nan
  | F32.fin q => F32.fin (tmod10 q)

/-- Rust `as u8` on the f32 model: NaN casts to 0. -/
def f32toU8 : F32 → ℕ
  | F32.nan => 0
  | F32.fin q => castU8 q

/-- src/usb.rs `encode_temperature`: a present reading becomes the digit
triple `(temp/10.0 as u8, temp%10.0 as u8, (temp*10.0)%10.0 as u8)`;
an absent reading becomes the sentinel `(238, 238, 238)`. -/
def encode_temperature : Option F32 → ℕ × ℕ × ℕ
  | some t => (f32toU8 (f32div10 t), f32toU8 (f32rem10 t), f32toU8 (f32rem10 (f32mul10 t)))
  | none => (238, 238, 238)

/-- `fold 0u8 wrapping_add` over a list of bytes. -/
def wrapSum (l : List ℕ) : ℕ := l.foldl (fun acc b => (acc + b) % 256) 0

/-- src/usb.rs `generate_payload`: header `85,170,1,1,6`, CPU digits,
GPU digits, then the wrapping checksum of the first 11 bytes. -/
def generate_payload (cpu_temp gpu_temp : Option F32) : List ℕ :=
  let cpu := encode_temperature cpu_temp
  let gpu := encode_temperature gpu_temp
  let body : List ℕ := [85, 170, 1, 1, 6, cpu.1, cpu.2.1, cpu.2.2, gpu.1, gpu.2.1, gpu.2.2]
  body ++ [wrapSum body]

/-- The saturating byte conversion, stated on the integer (post-floor)
value: negative values become 0, values at least 255 become 255. -/
def satByte (z : ℤ) : ℕ := if z < 0 then 0 else if 255 ≤ z then 255 else z.toNat

/-- Digit of the specification: `ones = floor (temp / 10)`. -/
def specOnes (q : ℚ) : ℤ := ⌊q / 10⌋

/-- Digit of the specification: `tens = floor (temp mod 10)`. -/
def specTens (q : ℚ) : ℤ := ⌊tmod10 q⌋

/-- Tenths digit computed from the value m that the f32 product
`temp * 10.0` actually produced: `floor (m mod 10)`.  The product is the
one f32 operation in the codec that rounds, so it is passed in rather
than fixed to the exact rational product. -/
def specTenthsOf (mul10 : ℚ → ℚ) (q : ℚ) : ℤ := ⌊tmod10 (mul10 q)⌋

/-- `temp * 10.0` with the finite-value product supplied as an oracle,
covering whatever rounded value the platform multiplication returns. -/
def f32mul10R (mul10 : ℚ → ℚ) : F32 → F32
  | F32.nan => F32.nan
  | F32.fin q => F32.fin (mul10 q)

/-- src/usb.rs `encode_temperature` with the f32 product `temp * 10.0` —
the one inexact f32 operation in the codec — passed as an oracle, in the
same style as the parser oracle of read_temp.  Instantiating the oracle
with the exact rational product recovers encode_temperature. -/
def encode_temperature_rounded (mul10 : ℚ → ℚ) : Option F32 → ℕ × ℕ × ℕ
  | some t => (f32toU8 (f32div10 t), f32toU8 (f32rem10 t),
      f32toU8 (f32rem10 (f32mul10R mul10 t)))
  | none => (238, 238, 238)

/-- A reading that is NaN or a nonpositive value. -/
def F32.nonpos : F32 → Prop
  | F32.nan => True
  | F32.fin q => q ≤ 0

theorem castU8_eq_satByte_floor (q : ℚ) : castU8 q = satByte ⌊q⌋ := by
  have h1 : (⌊q⌋ < 0) ↔ (q < 0) := by
    rw [Int.floor_lt]
    norm_num
  have h2 : ((255:ℤ) ≤ ⌊q⌋) ↔ ((255:ℚ) ≤ q) := by
    rw [Int.le_floor]
    norm_num
  simp only [castU8, satByte, h1, h2]

theorem castU8_of_nonpos {q : ℚ} (h : q ≤ 0) : castU8 q = 0 := by
  unfold castU8
  rcases lt_or_eq_of_le h with h1 | h1
  · simp [h1]
  · norm_num [h1]

theorem tmod10_nonpos {q : ℚ} (h : q ≤ 0) : tmod10 q ≤ 0 := by
  unfold tmod10 ratTrunc
  split
  · next h0 =>
    have hq : q = 0 := le_antisymm h (by linarith)
    simp [hq]
  · next h0 =>
    push_cast
    have hf := Int.floor_le (-(q / 10))
    linarith

theorem encode_nonpos {t : F32} (h : t.nonpos) :
    encode_temperature (some t) = (0, 0, 0) := by
  cases t with
  | nan => rfl
  | fin q =>
    have hq : q ≤ 0 := h
    simp only [encode_temperature, f32div10, f32rem10, f32mul10, f32toU8]
    rw [castU8_of_nonpos (by linarith : q / 10 ≤ 0),
        castU8_of_nonpos (tmod10_nonpos hq),
        castU8_of_nonpos (tmod10_nonpos (by linarith : q * 10 ≤ 0))]

theorem encode_zero : encode_temperature (some (F32.fin 0)) = (0, 0, 0) :=
  encode_nonpos (le_refl (0:ℚ))

theorem foldl_wrapAdd (l : List ℕ) (a : ℕ) :
    l.foldl (fun acc b => (acc + b) % 256) (a % 256) = (a + l.sum) % 256 := by
  induction l generalizing a with
  | nil => simp
  | cons b t ih =>
    simp only [List.foldl_cons, List.sum_cons, Nat.mod_add_mod]
    rw [ih (a + b), Nat.add_assoc]

theorem wrapSum_eq_sum_mod (l : List ℕ) : wrapSum l = l.sum % 256 := by
  have h := foldl_wrapAdd l 0
  simpa [wrapSum] using h

/-- Claim C1: encoding CPU 24.0 with GPU 16.0 yields the 12-byte frame
85,170,1,1,6,2,4,0,1,6,0,20, and encoding CPU 24.0 with GPU absent yields
85,170,1,1,6,2,4,0,238,238,238,215 with the sentinel triple in bytes
8 to 10. -/
theorem C1_payload_vectors :
    generate_payload (some (F32.fin 24)) (some (F32.fin 16)) =
        [85, 170, 1, 1, 6, 2, 4, 0, 1, 6, 0, 20] ∧
    generate_payload (some (F32.fin 24)) none =
        [85, 170, 1, 1, 6, 2, 4, 0, 238, 238, 238, 215] := by
  constructor <;>
    (norm_num [generate_payload, encode_temperature, f32div10, f32rem10, f32mul10,
      f32toU8, castU8, tmod10, ratTrunc, wrapSum]
     decide)

/-- Claim C2: for every pair of optional inputs, byte 11 of the generated
frame is the 8-bit wraparound sum of bytes 0 through 10 of the frame. -/
theorem C2_checksum (c g : Option F32) :
    (generate_payload c g).getD 11 0 = ((generate_payload c g).take 11).sum % 256 := by
  simp [generate_payload, wrapSum_eq_sum_mod, Nat.add_assoc]

/-- Claim C3 fails on the code: at temperature 2560.0 the ones byte is the
saturated value 255, not the wraparound value floor (2560 / 10) mod 256 = 0
demanded by the claim. -/
theorem C3_counterexample :
    (encode_temperature (some (F32.fin 2560))).1 ≠ (⌊(2560:ℚ) / 10⌋).toNat % 256 := by
  norm_num [encode_temperature, f32div10, f32toU8, castU8]
  decide

theorem encode_temperature_rounded_exact (t : Option F32) :
    encode_temperature_rounded (fun q => q * 10) t = encode_temperature t := by
  cases t with
  | none => rfl
  | some v => cases v <;> rfl

/-- Claim C3 (amended): for every finite present reading t the digit
bytes are ones = floor (t / 10), tens = floor (t mod 10), and tenths =
floor (m mod 10) where m is the value the f32 product t * 10.0 returned;
each is converted to a byte by saturation (negative values to 0, values
at least 255 to 255), not by wraparound.  Quantifying over every product
function covers in particular the platform's rounded f32 product. -/
theorem C3_amended_saturating_digits (mul10 : ℚ → ℚ) (q : ℚ) :
    encode_temperature_rounded mul10 (some (F32.fin q)) =
      (satByte (specOnes q), satByte (specTens q), satByte (specTenthsOf mul10 q)) := by
  simp only [encode_temperature_rounded, f32div10, f32rem10, f32mul10R, f32toU8,
    specOnes, specTens, specTenthsOf, castU8_eq_satByte_floor]

/-- Claim C9: any NaN or nonpositive present reading encodes as the digit
triple 0,0,0, making the frame byte-identical to the frame for a present
0.0 reading on the same channel, and any reading at least 2550 has ones
byte 255. -/
theorem C9_saturation :
    (∀ t : F32, t.nonpos →
       encode_temperature (some t) = (0, 0, 0) ∧
       (∀ g, generate_payload (some t) g = generate_payload (some (F32.fin 0)) g) ∧
       (∀ c, generate_payload c (some t) = generate_payload c (some (F32.fin 0)))) ∧
    (∀ q : ℚ, (2550:ℚ) ≤ q → (encode_temperature (some (F32.fin q))).1 = 255) := by
  constructor
  · intro t ht
    have he := encode_nonpos ht
    refine ⟨he, ?_, ?_⟩
    · intro g
      simp [generate_payload, he, encode_zero]
    · intro c
      simp [generate_payload, he, encode_zero]
  · intro q hq
    simp only [encode_temperature, f32div10, f32toU8]
    unfold castU8
    have h1 : ¬ (q / 10 < 0) := by linarith
    have h2 : (255:ℚ) ≤ q / 10 := by linarith
    simp [h1, h2]

/-- Claim C9 witness: instantiated at NaN and at 2550. -/
theorem C9_saturation_witness :
    encode_temperature (some F32.nan) = (0, 0, 0) ∧
    (encode_temperature (some (F32.fin 2550))).1 = 255 :=
  ⟨(C9_saturation.1 F32.nan trivial).1,
   C9_saturation.2 2550 (le_refl (2550:ℚ))⟩

/-- Model of Rust char::is_whitespace restricted to the ASCII whitespace
that sensor and label files can contain. -/
def charIsWs (c : Char) : Bool := c = ' ' || c = '\t' || c = '\n' || c = '\r'

/-- Model of Rust str::trim. -/
def strTrim (s : String) : String :=
  String.mk (((s.data.dropWhile charIsWs).reverse.dropWhile charIsWs).reverse)

/-- Model of Rust str::starts_with. -/
def strStartsWith (s pre : String) : Bool := pre.data.isPrefixOf s.data

/-- Substring occurrence test on character lists. -/
def listContainsSub (pat : List Char) : List Char → Bool
  | [] => pat.isEmpty
  | c :: rest => pat.isPrefixOf (c :: rest) || listContainsSub pat rest

/-- Model of Rust str::contains for a literal pattern. -/
def strContainsSub (s pat : String) : Bool := listContainsSub pat.data s.data

/-- src/config.rs Config: cpu_device, the reserved _gpu_device, and the
polling interval in milliseconds. -/
structure Config where
  cpu_device : Option String
  _gpu_device : Option String
  polling_interval : ℕ
deriving DecidableEq

/-- src/config.rs Config::validated: clamp polling_interval to
100..=60000, and reset cpu_device to none unless the path starts with
"/sys/", is free of "..", and exists.  Path existence is passed in as an
explicit oracle for the filesystem. -/
def Config.validated (pathExists : String → Bool) (c : Config) : Config :=
  let pi := if c.polling_interval < 100 then 100
    else if 60000 < c.polling_interval then 60000
    else c.polling_interval
  let cd := match c.cpu_device with
    | some path =>
      if strStartsWith path "/sys/" && !(strContainsSub path "..") && pathExists path
      then some path
      else none
    | none => none
  { cpu_device := cd, _gpu_device := c._gpu_device, polling_interval := pi }

/-- Claim C5: validation clamps polling_interval: below 100 is raised to
100, above 60000 is lowered to 60000, in-range values pass through. -/
theorem C5_polling_clamp (pathExists : String → Bool) (c : Config) :
    (c.polling_interval < 100 → (c.validated pathExists).polling_interval = 100) ∧
    (60000 < c.polling_interval → (c.validated pathExists).polling_interval = 60000) ∧
    (100 ≤ c.polling_interval → c.polling_interval ≤ 60000 →
      (c.validated pathExists).polling_interval = c.polling_interval) := by
  simp only [Config.validated]
  refine ⟨fun h => ?_, fun h => ?_, fun h1 h2 => ?_⟩ <;> split_ifs <;> omega

/-- Claim C5 witness: the clamp at the concrete interval 50. -/
theorem C5_polling_clamp_witness :
    ((Config.mk none none 50).validated (fun _ => false)).polling_interval = 100 :=
  (C5_polling_clamp (fun _ => false) (Config.mk none none 50)).1 (by decide)

/-- Claim C10: validation leaves polling_interval in 100..=60000, keeps
cpu_device as the input or resets it to none, resets it whenever the path
fails the /sys/ prefix, ".." or existence checks, and does not modify the
remaining field. -/
theorem C10_validated_invariant (pathExists : String → Bool) (c : Config) :
    100 ≤ (c.validated pathExists).polling_interval ∧
    (c.validated pathExists).polling_interval ≤ 60000 ∧
    ((c.validated pathExists).cpu_device = c.cpu_device ∨
      (c.validated pathExists).cpu_device = none) ∧
    (∀ p, c.cpu_device = some p →
      (strStartsWith p "/sys/" = false ∨ strContainsSub p ".." = true ∨
        pathExists p = false) →
      (c.validated pathExists).cpu_device = none) ∧
    (c.validated pathExists)._gpu_device = c._gpu_device := by
  refine ⟨?_, ?_, ?_, ?_, ?_⟩
  · simp only [Config.validated]
    split_ifs <;> omega
  · simp only [Config.validated]
    split_ifs <;> omega
  · cases hc : c.cpu_device with
    | none => right; simp [Config.validated, hc]
    | some p =>
      simp only [Config.validated, hc]
      split_ifs <;> simp
  · intro p hp hbad
    simp only [Config.validated, hp]
    have hfalse : (strStartsWith p "/sys/" && !(strContainsSub p "..") && pathExists p) = false := by
      rcases hbad with h | h | h <;> simp [h]
    simp [hfalse]
  · rfl

/-- Claim C10 witness: a traversal path is reset to none. -/
theorem C10_validated_invariant_witness :
    ((Config.mk (some "/sys/../etc/shadow") none 1000).validated (fun _ => true)).cpu_device =
      none :=
  (C10_validated_invariant (fun _ => true)
      (Config.mk (some "/sys/../etc/shadow") none 1000)).2.2.2.1
    "/sys/../etc/shadow" rfl (Or.inr (Or.inl (by decide)))

/-- The thermal_zone0 fallback path probed by src/cpu.rs. -/
def thermalZone0Path : String := "/sys/class/thermal/thermal_zone0/temp"

/-- The hwmon0 fallback path probed by src/cpu.rs. -/
def hwmon0Path : String := "/sys/class/hwmon/hwmon0/temp1_input"

/-- Filesystem state seen by src/cpu.rs: the result of read_dir on
/sys/class/hwmon (none when the enumeration itself fails; each entry is
none when that entry fails), and a file-content oracle for
read_to_string. -/
structure SysFs where
  hwmonEntries : Option (List (Option String))
  readFile : String → Option String

/-- The for-loop of src/cpu.rs default_cpu_device.  Result none models
the early return of the whole function caused by a failing directory
entry; some none means the loop finished without a Tctl match; some
(some p) is a Tctl match. -/
def scan_hwmon (readFile : String → Option String) : List (Option String) → Option (Option String)
  | [] => some none
  | none :: _ => none
  | some p :: rest =>
    match readFile (p ++ "/temp1_label") with
    | some label =>
      if strTrim label = "Tctl" then some (some (p ++ "/temp1_input"))
      else scan_hwmon readFile rest
    | none => scan_hwmon readFile rest

/-- src/cpu.rs default_cpu_device: scan hwmon devices for a Tctl label,
then fall back to thermal_zone0, then to hwmon0, else none.  The two ?
operators make a failed enumeration or a failed entry return none
immediately. -/
def default_cpu_device (fs : SysFs) : Option String :=
  match fs.hwmonEntries with
  | none => none
  | some entries =>
    match scan_hwmon fs.readFile entries with
    | none => none
    | some (some p) => some p
    | some none =>
      if (fs.readFile thermalZone0Path).isSome then some thermalZone0Path
      else if (fs.readFile hwmon0Path).isSome then some hwmon0Path
      else none

/-- The ordered first-match search over hwmon directories, following the
spec text of the CPU Sensor Locator (step 1). -/
def spec_find_tctl (readFile : String → Option String) : List String → Option String
  | [] => none
  | p :: rest =>
    match readFile (p ++ "/temp1_label") with
    | some label =>
      if strTrim label = "Tctl" then some (p ++ "/temp1_input")
      else spec_find_tctl readFile rest
    | none => spec_find_tctl readFile rest

/-- The CPU Sensor Locator algorithm exactly as the spec states it:
Tctl match, else thermal_zone0 if readable, else hwmon0 if readable,
else absent. -/
def spec_cpu_device (readFile : String → Option String) (dirs : List String) : Option String :=
  match spec_find_tctl readFile dirs with
  | some p => some p
  | none =>
    if (readFile thermalZone0Path).isSome then some thermalZone0Path
    else if (readFile hwmon0Path).isSome then some hwmon0Path
    else none

/-- A filesystem in which the first hwmon directory entry fails, a later
device carries the Tctl label, and thermal_zone0 is readable. -/
def c4fs : SysFs where
  hwmonEntries := some [none, some "/sys/class/hwmon/hwmon1"]
  readFile := fun s =>
    if s = "/sys/class/hwmon/hwmon1/temp1_label" then some "Tctl"
    else if s = "/sys/class/thermal/thermal_zone0/temp" then some "30000"
    else none

/-- Claim C4 fails on the code: in c4fs a hwmon device carries the
trimmed label Tctl and thermal_zone0 is readable, yet default_cpu_device
returns none, because the ? on the failing first entry aborts the whole
function before the match and before any fallback. -/
theorem C4_counterexample :
    (c4fs.readFile ("/sys/class/hwmon/hwmon1" ++ "/temp1_label")).map strTrim =
        some "Tctl" ∧
    (c4fs.readFile thermalZone0Path).isSome = true ∧
    default_cpu_device c4fs = none := by
  refine ⟨by decide, by decide, by decide⟩

/-- Claim C4 (amended): when the hwmon enumeration succeeds and every
directory entry is read without error, default_cpu_device follows the
ordered first-match algorithm of the spec; when the enumeration itself
fails, it returns none immediately without trying the fallbacks; and
when any directory entry fails before a Tctl match — the entries ahead
of the first failing one are error-free and none of them matches — it
likewise returns none immediately without trying the fallbacks. -/
theorem C4_amended_locator :
    (∀ (readFile : String → Option String) (dirs : List String),
       default_cpu_device (SysFs.mk (some (dirs.map some)) readFile) =
         spec_cpu_device readFile dirs) ∧
    (∀ readFile : String → Option String,
       default_cpu_device (SysFs.mk none readFile) = none) ∧
    (∀ (readFile : String → Option String) (dirs : List String)
       (rest : List (Option String)),
       spec_find_tctl readFile dirs = none →
       default_cpu_device
           (SysFs.mk (some (dirs.map some ++ none :: rest)) readFile) = none) := by
  refine ⟨?_, ?_, ?_⟩
  · intro readFile dirs
    have h : scan_hwmon readFile (dirs.map some) = some (spec_find_tctl readFile dirs) := by
      induction dirs with
      | nil => rfl
      | cons p rest ih =>
        simp only [List.map_cons, scan_hwmon, spec_find_tctl]
        cases hr : readFile (p ++ "/temp1_label") with
        | none => exact ih
        | some label =>
          by_cases ht : strTrim label = "Tctl"
          · simp [ht]
          · simp [ht, ih]
    cases hs : spec_find_tctl readFile dirs with
    | none => simp [default_cpu_device, spec_cpu_device, h, hs]
    | some p => simp [default_cpu_device, spec_cpu_device, h, hs]
  · intro readFile
    rfl
  · intro readFile dirs rest hnone
    have hscan : ∀ ds : List String, spec_find_tctl readFile ds = none →
        scan_hwmon readFile (ds.map some ++ none :: rest) = none := by
      intro ds
      induction ds with
      | nil => intro _; rfl
      | cons p t ih =>
        intro h
        cases hr : readFile (p ++ "/temp1_label") with
        | none =>
          simp only [spec_find_tctl, hr] at h
          simp only [List.map_cons, List.cons_append, scan_hwmon, hr]
          exact ih h
        | some label =>
          simp only [spec_find_tctl, hr] at h
          by_cases ht : strTrim label = "Tctl"
          · rw [if_pos ht] at h
            simp at h
          · rw [if_neg ht] at h
            simp only [List.map_cons, List.cons_append, scan_hwmon, hr, if_neg ht]
            exact ih h
    simp [default_cpu_device, hscan dirs hnone]

/-- Claim C4 (amended) witness: a failing entry after a non-matching
device makes the locator return none outright. -/
theorem C4_amended_locator_witness :
    default_cpu_device
        (SysFs.mk
          (some [some "/sys/class/hwmon/hwmon0", none, some "/sys/class/hwmon/hwmon2"])
          (fun _ => none)) = none :=
  C4_amended_locator.2.2 (fun _ => none) ["/sys/class/hwmon/hwmon0"]
    [some "/sys/class/hwmon/hwmon2"] (by decide)

/-- src/cpu.rs read_temp: read the sensor file, trim, parse, divide by
1000; any failure yields none.  The float parser is passed in as an
oracle. -/
def read_temp (readFile : String → Option String) (parse : String → Option ℚ)
    (device : String) : Option ℚ :=
  ((readFile device).bind (fun content => parse (strTrim content))).map (fun t => t / 1000)

/-- Claim C8: read_temp returns none exactly when the file read fails or
the trimmed contents fail to parse, and otherwise returns the parsed
value divided by 1000; it is a total function, never propagating an
error. -/
theorem C8_read_temp (readFile : String → Option String) (parse : String → Option ℚ)
    (device : String) :
    (read_temp readFile parse device = none ↔
      readFile device = none ∨
        ∃ c, readFile device = some c ∧ parse (strTrim c) = none) ∧
    (∀ c t, readFile device = some c → parse (strTrim c) = some t →
      read_temp readFile parse device = some (t / 1000)) := by
  constructor
  · cases hr : readFile device with
    | none => simp [read_temp, hr]
    | some c =>
      cases hp : parse (strTrim c) with
      | none => simp [read_temp, hr, hp]
      | some t => simp [read_temp, hr, hp]
  · intro c t hr hp
    simp [read_temp, hr, hp]

/-- Claim C8 witness: a concrete millidegree file is parsed and scaled. -/
theorem C8_read_temp_witness :
    read_temp (fun s => if s = "dev" then some " 45500 " else none)
      (fun s => if s = "45500" then some (45500:ℚ) else none) "dev" =
      some ((45500:ℚ) / 1000) :=
  (C8_read_temp (fun s => if s = "dev" then some " 45500 " else none)
      (fun s => if s = "45500" then some (45500:ℚ) else none) "dev").2
    " 45500 " 45500 (by decide) (by decide)

/-- USB endpoint transfer types as in the rusb descriptor model. -/
inductive XferType where
  | control
  | isochronous
  | bulk
  | interrupt
deriving DecidableEq

/-- USB endpoint directions. -/
inductive EpDirection where
  | dirIn
  | dirOut
deriving DecidableEq

/-- One endpoint descriptor of the active configuration. -/
structure EndpointDesc where
  transferType : XferType
  direction : EpDirection
  address : ℕ
deriving DecidableEq

/-- The endpoint filter of src/usb.rs UsbDevice::open. -/
def isInterruptOut (e : EndpointDesc) : Bool :=
  decide (e.transferType = XferType.interrupt) && decide (e.direction = EpDirection.dirOut)

/-- The device session: after open it holds only the cached endpoint
address. -/
structure UsbDevice where
  endpoint : ℕ

/-- src/usb.rs UsbDevice::open, endpoint resolution step: the flattened
endpoint descriptors of the active configuration (none when the
descriptor read fails), searched once for the first interrupt OUT
endpoint; fallback address 0x03. -/
def UsbDevice.open (cfg : Option (List EndpointDesc)) : UsbDevice :=
  { endpoint :=
      (cfg.bind (fun eps => (eps.find? isInterruptOut).map EndpointDesc.address)).getD 0x03 }

/-- src/usb.rs UsbDevice::send_payload: write generate_payload to the
cached endpoint.  The model returns the written address and bytes. -/
def UsbDevice.send_payload (d : UsbDevice) (cpu_temp gpu_temp : Option F32) : ℕ × List ℕ :=
  (d.endpoint, generate_payload cpu_temp gpu_temp)

/-- Claim C7: open caches the address of the first interrupt OUT endpoint
of the configuration descriptor, or 0x03 when none exists or the
descriptor cannot be read, and send_payload always writes to exactly the
cached address without re-querying the descriptor. -/
theorem C7_endpoint_resolution :
    (∀ (l1 : List EndpointDesc) (ep : EndpointDesc) (l2 : List EndpointDesc),
       (∀ e, e ∈ l1 → isInterruptOut e = false) → isInterruptOut ep = true →
       (UsbDevice.open (some (l1 ++ ep :: l2))).endpoint = ep.address) ∧
    (∀ eps : List EndpointDesc,
       (∀ e, e ∈ eps → isInterruptOut e = false) →
       (UsbDevice.open (some eps)).endpoint = 0x03) ∧
    (UsbDevice.open none).endpoint = 0x03 ∧
    (∀ (d : UsbDevice) (c g : Option F32),
       d.send_payload c g = (d.endpoint, generate_payload c g)) := by
  refine ⟨?_, ?_, rfl, fun d c g => rfl⟩
  · intro l1 ep l2 hno hep
    induction l1 with
    | nil => simp [UsbDevice.open, List.find?, hep]
    | cons e rest ih =>
      have he : isInterruptOut e = false := hno e (List.mem_cons_self e rest)
      have hrest : ∀ x, x ∈ rest → isInterruptOut x = false :=
        fun x hx => hno x (List.mem_cons_of_mem e hx)
      have hfind : (e :: (rest ++ ep :: l2)).find? isInterruptOut =
          (rest ++ ep :: l2).find? isInterruptOut := by
        simp [List.find?_cons, he]
      have ihr := ih hrest
      simp only [UsbDevice.open, List.cons_append] at ihr ⊢
      rw [show (some (e :: (rest ++ ep :: l2))).bind
            (fun eps => (eps.find? isInterruptOut).map EndpointDesc.address) =
          (some (rest ++ ep :: l2)).bind
            (fun eps => (eps.find? isInterruptOut).map EndpointDesc.address) by
        simp [hfind]]
      exact ihr
  · intro eps hno
    have h : eps.find? isInterruptOut = none := List.find?_eq_none.mpr (by simpa using hno)
    simp [UsbDevice.open, h]

/-- Claim C7 witness: a bulk OUT endpoint is skipped in favour of the
first interrupt OUT endpoint, and the fallback cases give 3. -/
theorem C7_endpoint_resolution_witness :
    (UsbDevice.open (some
        [EndpointDesc.mk XferType.bulk EpDirection.dirOut 1,
         EndpointDesc.mk XferType.interrupt EpDirection.dirIn 2,
         EndpointDesc.mk XferType.interrupt EpDirection.dirOut 5])).endpoint = 5 ∧
    (UsbDevice.open (some [EndpointDesc.mk XferType.bulk EpDirection.dirOut 1])).endpoint = 3 :=
  ⟨C7_endpoint_resolution.1
      [EndpointDesc.mk XferType.bulk EpDirection.dirOut 1,
       EndpointDesc.mk XferType.interrupt EpDirection.dirIn 2]
      (EndpointDesc.mk XferType.interrupt EpDirection.dirOut 5) []
      (by decide) (by decide),
   C7_endpoint_resolution.2.1 [EndpointDesc.mk XferType.bulk EpDirection.dirOut 1] (by decide)⟩

/-- src/main.rs polling loop, as a fuel-bounded trace of transmitted
frames.  flag i is the value the atomic termination flag shows at the top
of iteration i; sense i is the pair of optional readings polled in
iteration i.  When the flag reads false the loop exits and the final
frame for readings 0.0, 0.0 is sent; none means the fuel ran out before
the flag was observed false. -/
def runLoop (flag : ℕ → Bool) (sense : ℕ → Option F32 × Option F32) :
    ℕ → ℕ → Option (List (List ℕ))
  | 0, _ => none
  | fuel + 1, i =>
    if flag i then
      (runLoop flag sense fuel (i + 1)).map
        (fun rest => generate_payload (sense i).1 (sense i).2 :: rest)
    else
      some [generate_payload (some (F32.fin 0)) (some (F32.fin 0))]

theorem runLoop_terminates (flag : ℕ → Bool) (sense : ℕ → Option F32 × Option F32) :
    ∀ (n i fuel : ℕ), (∀ j, j < n → flag (i + j) = true) → flag (i + n) = false →
      n < fuel →
      runLoop flag sense fuel i =
        some ((List.range n).map
            (fun j => generate_payload (sense (i + j)).1 (sense (i + j)).2) ++
          [generate_payload (some (F32.fin 0)) (some (F32.fin 0))]) := by
  intro n
  induction n with
  | zero =>
    intro i fuel _ hstop hfuel
    obtain ⟨f, rfl⟩ : ∃ f, fuel = f + 1 := ⟨fuel - 1, by omega⟩
    simp only [runLoop]
    rw [show i + 0 = i from rfl] at hstop
    simp [hstop]
  | succ n ih =>
    intro i fuel hrun hstop hfuel
    obtain ⟨f, rfl⟩ : ∃ f, fuel = f + 1 := ⟨fuel - 1, by omega⟩
    have h0 : flag i = true := by
      have := hrun 0 (Nat.succ_pos n)
      simpa using this
    have hrun1 : ∀ j, j < n → flag (i + 1 + j) = true := by
      intro j hj
      have := hrun (j + 1) (by omega)
      rwa [show i + (j + 1) = i + 1 + j by omega] at this
    have hstop1 : flag (i + 1 + n) = false := by
      rwa [show i + (n + 1) = i + 1 + n by omega] at hstop
    have ihr := ih (i + 1) f hrun1 hstop1 (by omega)
    have hlist : (List.range (n + 1)).map
          (fun j => generate_payload (sense (i + j)).1 (sense (i + j)).2) =
        generate_payload (sense i).1 (sense i).2 ::
          (List.range n).map
            (fun j => generate_payload (sense (i + 1 + j)).1 (sense (i + 1 + j)).2) := by
      rw [List.range_succ_eq_map, List.map_cons, List.map_map]
      have hfun : ((fun j => generate_payload (sense (i + j)).1 (sense (i + j)).2) ∘
            Nat.succ) =
          (fun j => generate_payload (sense (i + 1 + j)).1 (sense (i + 1 + j)).2) := by
        funext j
        simp only [Function.comp_apply, Nat.succ_eq_add_one]
        rw [show i + (j + 1) = i + 1 + j by omega]
      rw [hfun]
      simp
    simp only [runLoop, h0, if_true, ihr, Option.map_some, hlist, List.cons_append]
    rfl

/-- Claim C6: if the flag reads true for the first n polls and false at
poll n, the loop terminates having transmitted exactly the n regular
frames followed by one final frame 85,170,1,1,6,0,0,0,0,0,0,7 — the
frame for both readings present as 0.0, whose checksum byte is 7. -/
theorem C6_termination (flag : ℕ → Bool) (sense : ℕ → Option F32 × Option F32)
    (n fuel : ℕ) (hrun : ∀ j, j < n → flag j = true) (hstop : flag n = false)
    (hfuel : n < fuel) :
    runLoop flag sense fuel 0 =
      some ((List.range n).map (fun j => generate_payload (sense j).1 (sense j).2) ++
        [[85, 170, 1, 1, 6, 0, 0, 0, 0, 0, 0, 7]]) := by
  have hz : generate_payload (some (F32.fin 0)) (some (F32.fin 0)) =
      [85, 170, 1, 1, 6, 0, 0, 0, 0, 0, 0, 7] := by
    simp [generate_payload, encode_zero, wrapSum]
  have h := runLoop_terminates flag sense n 0 fuel (by simpa using hrun) (by simpa using hstop)
    hfuel
  simpa [hz] using h

/-- Claim C6 witness: one true poll with absent sensors, then the flag is
observed false and the final zero frame closes the trace. -/
theorem C6_termination_witness :
    runLoop (fun i => decide (i < 1)) (fun _ => (none, none)) 2 0 =
      some [[85, 170, 1, 1, 6, 238, 238, 238, 238, 238, 238, 155],
            [85, 170, 1, 1, 6, 0, 0, 0, 0, 0, 0, 7]] := by
  have h := C6_termination (fun i => decide (i < 1)) (fun _ => (none, none)) 1 2
    (fun j hj => decide_eq_true hj) (by decide) (by decide)
  rw [h]
  rfl
